import Mathlib

/-!
Shallow embedding of `src/memray/_memray/tracking_api.h` (memray tracking
core) and proofs of the specified properties.

The embedding follows the C++ source: `NativeTrace` (thread-local native
stack capture with a growable scratch buffer) and the `Tracker` singleton
dispatch layer.  Machine integers (`size_t`, `int`) are modelled as `Nat`;
the only arithmetic in the source that could overflow is `MAX_SIZE * 2`,
which is unreachable in practice (the capacity is bounded by the size of a
stack that fits in memory), so no wraparound is modelled.

The platform unwinding facility (libunwind) is external to the repository;
it is modelled by an environment `UnwindEnv` carrying the true native stack
at capture time (innermost frame first, as `unw_backtrace` stores it) and
flags for the failure modes the source checks for.
-/

namespace memray.tracking_api

/-- `ip_t = frame_id_t`: an instruction-pointer-like frame id. -/
abbrev ip_t := Nat

/-- Environment supplied by the platform unwinding facility at one capture:
the true native stack (innermost first) and the failure modes of the exact
unwind (`unw_getcontext`, `unw_init_local`, `unw_get_reg` at a given loop
iteration). -/
structure UnwindEnv where
  stack : List ip_t
  getcontextFails : Bool
  initLocalFails : Bool
  getRegFailIdx : Option Nat
deriving DecidableEq

/-- State of a `NativeTrace` object together with the thread-local
`MAX_SIZE` capacity (a `static thread_local` in the source; it is part of
the per-thread state this object observes and mutates). -/
structure NativeTrace where
  d_size : Nat
  d_skip : Nat
  d_data : List ip_t
  MAX_SIZE : Nat
deriving DecidableEq

/-- The constructor: `d_data.resize(MAX_SIZE)` on a default-constructed
vector, for a thread whose current capacity is `cap`. -/
def NativeTrace.init (cap : Nat) : NativeTrace :=
  { d_size := 0, d_skip := 0, d_data := List.replicate cap 0, MAX_SIZE := cap }

/-- `std::vector::resize(n)`: truncate to `n` or pad with value-initialized
(zero) elements up to length `n`. -/
def listResize (l : List ip_t) (n : Nat) : List ip_t :=
  l.take n ++ List.replicate (n - l.length) 0

/-- `NativeTrace::unwind` (line 120): `unw_backtrace((void**)data, MAX_SIZE)`
writes up to `cap` innermost frames into the front of the buffer and returns
the number of frames written, `min (depth) cap`.  Returns the new buffer
contents and the return value. -/
def unwind (env : UnwindEnv) (cap : Nat) (buf : List ip_t) : List ip_t × Nat :=
  let written := env.stack.take cap
  (written ++ buf.drop written.length, min env.stack.length cap)

/-- Result of `exact_unwind`: the contents of `d_data` afterwards (it was
`resize(0)`-ed just before the call and frames are `emplace_back`-ed), the
return value, and the warnings written to `std::cerr`. -/
structure ExactResult where
  d_data : List ip_t
  ret : Nat
  warnings : List String
deriving DecidableEq

/-- `NativeTrace::exact_unwind` (lines 125-148): walks the stack with an
explicit cursor until exhaustion.  On `unw_getcontext` or `unw_init_local`
failure, logs a warning and returns 0 before emplacing anything; on an
`unw_get_reg` failure at loop iteration `k`, the first `k` frames were
already emplaced but 0 is returned.  On success returns `d_data.size()`,
i.e. the full stack depth. -/
def exact_unwind (env : UnwindEnv) : ExactResult :=
  if env.getcontextFails then
    { d_data := [], ret := 0,
      warnings := ["WARNING: Failed to initialize libunwind context"] }
  else if env.initLocalFails then
    { d_data := [], ret := 0,
      warnings := ["WARNING: Failed to initialize libunwind cursor"] }
  else
    match env.getRegFailIdx with
    | some k =>
      if k < env.stack.length then
        { d_data := env.stack.take k, ret := 0,
          warnings := ["WARNING: Failed to get instruction pointer"] }
      else
        { d_data := env.stack, ret := env.stack.length, warnings := [] }
    | none => { d_data := env.stack, ret := env.stack.length, warnings := [] }

/-- Intermediate state after lines 88-94 of `fill`: the buffer, the (possibly
grown) capacity, the local variable `size`, plus the observable side effects
(warnings; whether the slow exact-unwind branch ran). -/
structure UnwindStep where
  d_data : List ip_t
  MAX_SIZE : Nat
  size : Nat
  warnings : List String
  usedExact : Bool
deriving DecidableEq

/-- Lines 88-94 of `NativeTrace::fill`: fast unwind; if it returned exactly
`MAX_SIZE` frames (truncation signal), `resize(0)`, exact unwind, grow the
capacity to `MAX_SIZE * 2 > size ? MAX_SIZE * 2 : size`, and resize the
buffer to the new capacity. -/
def NativeTrace.unwindPhase (t : NativeTrace) (env : UnwindEnv) : UnwindStep :=
  if (unwind env t.MAX_SIZE t.d_data).2 = t.MAX_SIZE then
    { d_data := listResize (exact_unwind env).d_data
        (if t.MAX_SIZE * 2 > (exact_unwind env).ret then t.MAX_SIZE * 2
         else (exact_unwind env).ret)
      MAX_SIZE := if t.MAX_SIZE * 2 > (exact_unwind env).ret then t.MAX_SIZE * 2
        else (exact_unwind env).ret
      size := (exact_unwind env).ret
      warnings := (exact_unwind env).warnings
      usedExact := true }
  else
    { d_data := (unwind env t.MAX_SIZE t.d_data).1
      MAX_SIZE := t.MAX_SIZE
      size := (unwind env t.MAX_SIZE t.d_data).2
      warnings := []
      usedExact := false }

/-- Result of one `fill` call: the new object/thread state, the returned
bool, plus the observations (warnings, whether exact unwind ran, and the
final value of the local variable `size`, i.e. the number of unwound
frames). -/
structure FillOut where
  trace : NativeTrace
  ret : Bool
  warnings : List String
  usedExact : Bool
  unwound : Nat
deriving DecidableEq

/-- `NativeTrace::fill` (lines 86-98).  After the unwind phase:
`d_size = size > skip ? size - skip : 0; d_skip = skip; return d_size > 0`. -/
def NativeTrace.fill (t : NativeTrace) (env : UnwindEnv) (skip : Nat) : FillOut :=
  let s := t.unwindPhase env
  { trace := { d_size := if s.size > skip then s.size - skip else 0
               d_skip := skip
               d_data := s.d_data
               MAX_SIZE := s.MAX_SIZE }
    ret := decide (0 < if s.size > skip then s.size - skip else 0)
    warnings := s.warnings
    usedExact := s.usedExact
    unwound := s.size }

/-- `NativeTrace::operator[]` (lines 78-81): `d_data[d_skip + d_size - 1 - i]`
(reverse indexing from the end of the used region; index 0 is the outermost
frame). -/
def NativeTrace.opIndex (t : NativeTrace) (i : Nat) : ip_t :=
  t.d_data.getD (t.d_skip + t.d_size - 1 - i) 0

/-- `NativeTrace::size` (lines 82-85). -/
def NativeTrace.size (t : NativeTrace) : Nat :=
  t.d_size

/-- The sequence visited by iterating from `begin()` to `end()` (lines
70-77): reverse iterators over `d_data[d_skip .. d_skip + d_size)`, so the
elements of that region from last to first. -/
def NativeTrace.toList (t : NativeTrace) : List ip_t :=
  ((t.d_data.drop t.d_skip).take t.d_size).reverse

/-- A sequence of capture calls on one thread (each with its own unwind
environment and skip), folded over the thread state. -/
def runFills (t : NativeTrace) (calls : List (UnwindEnv × Nat)) : NativeTrace :=
  calls.foldl (fun s c => (NativeTrace.fill s c.1 c.2).trace) t

/-! ## Tracker singleton layer -/

/-- `hooks::Allocator`: the allocator kind attached to an event. -/
inductive Allocator
  | malloc
  | free
  | calloc
  | realloc
  | mmap
  | munmap
deriving DecidableEq

/-- A mirrored interpreter-level frame (`RawFrame`). -/
structure RawFrame where
  functionName : String
  filename : String
  lineno : Nat
deriving DecidableEq

/-- Configuration-carrying state of one live `Tracker` instance. -/
structure Tracker where
  writerId : Nat
  nativeTraces : Bool
  memoryInterval : Nat
  followFork : Bool
deriving DecidableEq

/-- A logical record handed to the record sink. -/
inductive Record
  | allocation (ptr byteCount : Nat) (func : Allocator)
  | deallocation (ptr byteCount : Nat) (func : Allocator)
  | moduleCacheUpdate
  | moduleCacheInvalidation
  | threadName (name : String)
deriving DecidableEq

/-- The process-wide state the `Tracker` class manages: the atomic instance
pointer `d_instance` (possibly null), the atomic activation flag `d_active`,
the stream of records written to the sink, the per-thread interpreter frame
mirror (thread id to frame list, innermost first), and whether the sink has
been flushed/closed. -/
structure MemrayState where
  d_instance : Option Tracker
  d_active : Bool
  sink : List Record
  mirror : List (Nat × List RawFrame)
  sinkClosed : Bool
deriving DecidableEq

/-- Modelled from the spec: `getTracker` has no body under src (declaration at
line 183 only); section 4.4 specifies it as a lock-free read of the current
instance pointer, null when no instance exists. -/
def Tracker.getTracker (s : MemrayState) : Option Tracker :=
  s.d_instance

/-- Modelled from the spec: `trackAllocationImpl` has no body under src;
section 4.4 says it builds an AllocationRecord and writes it synchronously
to the sink. -/
def Tracker.trackAllocationImpl (s : MemrayState) (ptr byteCount : Nat)
    (func : Allocator) : MemrayState :=
  { s with sink := s.sink ++ [Record.allocation ptr byteCount func] }

/-- Modelled from the spec: `trackDeallocationImpl` has no body under src;
section 4.4 says it writes a deallocation record to the sink. -/
def Tracker.trackDeallocationImpl (s : MemrayState) (ptr byteCount : Nat)
    (func : Allocator) : MemrayState :=
  { s with sink := s.sink ++ [Record.deallocation ptr byteCount func] }

/-- Modelled from the spec: `invalidate_module_cache_impl` has no body under
src; section 4.4 says it is forwarded to the hook-installer collaborator. -/
def Tracker.invalidate_module_cache_impl (s : MemrayState) : MemrayState :=
  { s with sink := s.sink ++ [Record.moduleCacheInvalidation] }

/-- Modelled from the spec: `updateModuleCacheImpl` has no body under src;
section 4.4 says it is forwarded to the hook-installer collaborator. -/
def Tracker.updateModuleCacheImpl (s : MemrayState) : MemrayState :=
  { s with sink := s.sink ++ [Record.moduleCacheUpdate] }

/-- Modelled from the spec: `registerThreadNameImpl` has no body under src;
section 4.4 says it emits a thread-name record to the sink. -/
def Tracker.registerThreadNameImpl (s : MemrayState) (name : String) :
    MemrayState :=
  { s with sink := s.sink ++ [Record.threadName name] }

/-- `Tracker::trackAllocation` (lines 186-193): dispatch through
`getTracker()`; no-op when it returns null. -/
def Tracker.trackAllocation (s : MemrayState) (ptr byteCount : Nat)
    (func : Allocator) : MemrayState :=
  match Tracker.getTracker s with
  | some _ => Tracker.trackAllocationImpl s ptr byteCount func
  | none => s

/-- `Tracker::trackDeallocation` (lines 195-202). -/
def Tracker.trackDeallocation (s : MemrayState) (ptr byteCount : Nat)
    (func : Allocator) : MemrayState :=
  match Tracker.getTracker s with
  | some _ => Tracker.trackDeallocationImpl s ptr byteCount func
  | none => s

/-- `Tracker::invalidate_module_cache` (lines 204-210). -/
def Tracker.invalidate_module_cache (s : MemrayState) : MemrayState :=
  match Tracker.getTracker s with
  | some _ => Tracker.invalidate_module_cache_impl s
  | none => s

/-- `Tracker::updateModuleCache` (lines 212-218). -/
def Tracker.updateModuleCache (s : MemrayState) : MemrayState :=
  match Tracker.getTracker s with
  | some _ => Tracker.updateModuleCacheImpl s
  | none => s

/-- `Tracker::registerThreadName` (lines 220-226). -/
def Tracker.registerThreadName (s : MemrayState) (name : String) : MemrayState :=
  match Tracker.getTracker s with
  | some _ => Tracker.registerThreadNameImpl s name
  | none => s

/-- Modelled from the spec: `isActive` has no body under src (declaration at
line 233 only); section 4.4 specifies it as a read of the atomic activation
flag. -/
def Tracker.isActive (s : MemrayState) : Bool :=
  s.d_active

/-- Look up one thread entry in the per-thread frame mirror. -/
def mirrorLookup (m : List (Nat × List RawFrame)) (tid : Nat) : List RawFrame :=
  match m with
  | [] => []
  | (t, l) :: rest => if t = tid then l else mirrorLookup rest tid

/-- Replace (or create) one thread entry in the per-thread frame mirror. -/
def mirrorSet (m : List (Nat × List RawFrame)) (tid : Nat) (l : List RawFrame) :
    List (Nat × List RawFrame) :=
  match m with
  | [] => [(tid, l)]
  | (t, l0) :: rest =>
    if t = tid then (t, l) :: rest else (t, l0) :: mirrorSet rest tid l

/-- Modelled from the spec: `pushFrame` has no body under src (declaration at
line 229 only); section 4.2 specifies that it returns false when the
singleton is not currently active, and otherwise pushes the frame onto the
calling thread own mirror sequence and returns true. -/
def Tracker.pushFrame (s : MemrayState) (tid : Nat) (f : RawFrame) :
    MemrayState × Bool :=
  if Tracker.isActive s then
    ({ s with mirror := mirrorSet s.mirror tid (f :: mirrorLookup s.mirror tid) },
     true)
  else
    (s, false)

/-- Modelled from the spec: `popFrames` has no body under src (declaration at
line 230 only); section 4.2 specifies that it returns false when the
singleton is not currently active, and otherwise pops `count` frames from
the calling thread own mirror sequence and returns true. -/
def Tracker.popFrames (s : MemrayState) (tid : Nat) (count : Nat) :
    MemrayState × Bool :=
  if Tracker.isActive s then
    ({ s with mirror := mirrorSet s.mirror tid ((mirrorLookup s.mirror tid).drop count) },
     true)
  else
    (s, false)

/-- Modelled from the spec: `createTracker` has no body under src (declaration
at lines 177-181 only); section 4.4 specifies that it fails when an instance
already exists (reporting an error to the caller rather than replacing the
instance), and otherwise installs the new singleton and activates tracking.
At most one instance ever exists: the model state holds an `Option Tracker`. -/
def Tracker.createTracker (s : MemrayState) (writerId : Nat)
    (nativeTraces : Bool) (memoryInterval : Nat) (followFork : Bool) :
    MemrayState × Except String Unit :=
  match s.d_instance with
  | some _ => (s, Except.error "A tracker instance already exists")
  | none =>
    ({ s with
        d_instance := some { writerId := writerId, nativeTraces := nativeTraces,
                             memoryInterval := memoryInterval,
                             followFork := followFork }
        d_active := true },
     Except.ok ())

/-- Modelled from the spec: `destroyTracker` has no body under src
(declaration at line 182 only); section 4.4 specifies that it stops the
background sampler, flushes/closes the sink and releases the singleton, and
that calling it twice is a no-op. -/
def Tracker.destroyTracker (s : MemrayState) : MemrayState :=
  match s.d_instance with
  | none => s
  | some _ => { s with d_instance := none, d_active := false, sinkClosed := true }

/-! ## Basic unfolding lemmas -/

lemma unwind_snd (env : UnwindEnv) (cap : Nat) (buf : List ip_t) :
    (unwind env cap buf).2 = min env.stack.length cap := rfl

lemma listResize_length (l : List ip_t) (n : Nat) :
    (listResize l n).length = n := by
  simp [listResize]
  omega

lemma unwind_fst_length (env : UnwindEnv) (cap : Nat) (buf : List ip_t)
    (h : buf.length = cap) : (unwind env cap buf).1.length = cap := by
  simp [unwind]
  omega

lemma fill_trace_MAX_SIZE (t : NativeTrace) (env : UnwindEnv) (skip : Nat) :
    (t.fill env skip).trace.MAX_SIZE = (t.unwindPhase env).MAX_SIZE := rfl

lemma fill_trace_d_data (t : NativeTrace) (env : UnwindEnv) (skip : Nat) :
    (t.fill env skip).trace.d_data = (t.unwindPhase env).d_data := rfl

lemma fill_trace_d_skip (t : NativeTrace) (env : UnwindEnv) (skip : Nat) :
    (t.fill env skip).trace.d_skip = skip := rfl

lemma fill_trace_d_size (t : NativeTrace) (env : UnwindEnv) (skip : Nat) :
    (t.fill env skip).trace.d_size =
      (if (t.unwindPhase env).size > skip then (t.unwindPhase env).size - skip
       else 0) := rfl

lemma fill_ret_def (t : NativeTrace) (env : UnwindEnv) (skip : Nat) :
    (t.fill env skip).ret =
      decide (0 < if (t.unwindPhase env).size > skip
                  then (t.unwindPhase env).size - skip else 0) := rfl

lemma fill_unwound_def (t : NativeTrace) (env : UnwindEnv) (skip : Nat) :
    (t.fill env skip).unwound = (t.unwindPhase env).size := rfl

lemma fill_usedExact_def (t : NativeTrace) (env : UnwindEnv) (skip : Nat) :
    (t.fill env skip).usedExact = (t.unwindPhase env).usedExact := rfl

lemma fill_warnings_def (t : NativeTrace) (env : UnwindEnv) (skip : Nat) :
    (t.fill env skip).warnings = (t.unwindPhase env).warnings := rfl

lemma unwindPhase_MAX_SIZE (t : NativeTrace) (env : UnwindEnv) :
    (t.unwindPhase env).MAX_SIZE =
      if (unwind env t.MAX_SIZE t.d_data).2 = t.MAX_SIZE
      then (if t.MAX_SIZE * 2 > (exact_unwind env).ret then t.MAX_SIZE * 2
            else (exact_unwind env).ret)
      else t.MAX_SIZE := by
  unfold NativeTrace.unwindPhase
  split <;> rfl

lemma unwindPhase_size (t : NativeTrace) (env : UnwindEnv) :
    (t.unwindPhase env).size =
      if (unwind env t.MAX_SIZE t.d_data).2 = t.MAX_SIZE
      then (exact_unwind env).ret
      else (unwind env t.MAX_SIZE t.d_data).2 := by
  unfold NativeTrace.unwindPhase
  split <;> rfl

lemma unwindPhase_d_data (t : NativeTrace) (env : UnwindEnv) :
    (t.unwindPhase env).d_data =
      if (unwind env t.MAX_SIZE t.d_data).2 = t.MAX_SIZE
      then listResize (exact_unwind env).d_data
        (if t.MAX_SIZE * 2 > (exact_unwind env).ret then t.MAX_SIZE * 2
         else (exact_unwind env).ret)
      else (unwind env t.MAX_SIZE t.d_data).1 := by
  unfold NativeTrace.unwindPhase
  split <;> rfl

lemma unwindPhase_warnings (t : NativeTrace) (env : UnwindEnv) :
    (t.unwindPhase env).warnings =
      if (unwind env t.MAX_SIZE t.d_data).2 = t.MAX_SIZE
      then (exact_unwind env).warnings
      else [] := by
  unfold NativeTrace.unwindPhase
  split <;> rfl

lemma unwindPhase_usedExact (t : NativeTrace) (env : UnwindEnv) :
    (t.unwindPhase env).usedExact =
      if (unwind env t.MAX_SIZE t.d_data).2 = t.MAX_SIZE then true
      else false := by
  unfold NativeTrace.unwindPhase
  split <;> rfl

lemma fill_ret_iff (t : NativeTrace) (env : UnwindEnv) (skip : Nat) :
    (t.fill env skip).ret = true ↔ skip < (t.unwindPhase env).size := by
  rw [fill_ret_def]
  simp only [decide_eq_true_eq]
  split <;> omega

lemma usedExact_iff (t : NativeTrace) (env : UnwindEnv) :
    (t.unwindPhase env).usedExact = true ↔
      (unwind env t.MAX_SIZE t.d_data).2 = t.MAX_SIZE := by
  rw [unwindPhase_usedExact]
  split <;> simp_all

lemma cap_le_fill (t : NativeTrace) (env : UnwindEnv) (skip : Nat) :
    t.MAX_SIZE ≤ ((t.fill env skip).trace).MAX_SIZE := by
  rw [fill_trace_MAX_SIZE, unwindPhase_MAX_SIZE]
  split
  · split <;> omega
  · omega

lemma cap_le_runFills (calls : List (UnwindEnv × Nat)) (t : NativeTrace) :
    t.MAX_SIZE ≤ (runFills t calls).MAX_SIZE := by
  induction calls generalizing t with
  | nil => simp [runFills]
  | cons c rest ih =>
    calc t.MAX_SIZE ≤ ((t.fill c.1 c.2).trace).MAX_SIZE := cap_le_fill t c.1 c.2
      _ ≤ (runFills (t.fill c.1 c.2).trace rest).MAX_SIZE := ih _

lemma exact_unwind_of_failure (env : UnwindEnv)
    (h : env.getcontextFails = true ∨ env.initLocalFails = true) :
    (exact_unwind env).ret = 0 ∧ (exact_unwind env).warnings ≠ [] := by
  rcases h with h | h
  · simp [exact_unwind, h]
  · by_cases hg : env.getcontextFails <;> simp [exact_unwind, h, hg]

lemma fill_bounds (t : NativeTrace) (env : UnwindEnv) (skip : Nat)
    (hwf : t.d_data.length = t.MAX_SIZE) (h : (t.fill env skip).ret = true) :
    (t.fill env skip).trace.d_skip + (t.fill env skip).trace.d_size ≤
      (t.fill env skip).trace.d_data.length := by
  have hs : skip < (t.unwindPhase env).size := (fill_ret_iff t env skip).1 h
  rw [fill_trace_d_skip, fill_trace_d_size, fill_trace_d_data]
  have hlen : (t.unwindPhase env).size ≤ (t.unwindPhase env).d_data.length := by
    rw [unwindPhase_size, unwindPhase_d_data]
    split
    · rw [listResize_length]
      split <;> omega
    · rw [unwind_fst_length env t.MAX_SIZE t.d_data hwf, unwind_snd]
      omega
  rw [if_pos hs]
  omega

lemma toList_length_of_bounds (u : NativeTrace)
    (hb : u.d_skip + u.d_size ≤ u.d_data.length) :
    u.toList.length = u.d_size := by
  simp [NativeTrace.toList]
  omega

lemma toList_getD_of_bounds (u : NativeTrace)
    (hb : u.d_skip + u.d_size ≤ u.d_data.length) (i : Nat) (hi : i < u.d_size) :
    u.toList.getD i 0 = u.opIndex i := by
  unfold NativeTrace.toList NativeTrace.opIndex
  have hlt : i < ((u.d_data.drop u.d_skip).take u.d_size).length := by
    simp
    omega
  rw [List.getD_eq_getElem?_getD, List.getElem?_reverse hlt,
    List.getD_eq_getElem?_getD]
  have hlen : ((u.d_data.drop u.d_skip).take u.d_size).length = u.d_size := by
    simp
    omega
  rw [hlen]
  have hj : u.d_size - 1 - i < u.d_size := by omega
  rw [List.getElem?_take_of_lt hj, List.getElem?_drop]
  have hidx : u.d_skip + (u.d_size - 1 - i) = u.d_skip + u.d_size - 1 - i := by
    omega
  rw [hidx]

lemma mirrorLookup_mirrorSet (m : List (Nat × List RawFrame)) (tid : Nat)
    (l : List RawFrame) : mirrorLookup (mirrorSet m tid l) tid = l := by
  induction m with
  | nil => simp [mirrorSet, mirrorLookup]
  | cons p rest ih =>
    rcases p with ⟨t0, l0⟩
    by_cases h : t0 = tid <;> simp [mirrorSet, mirrorLookup, h, ih]

/-! ## Claim theorems -/

/-- Concrete inputs used by the witnesses: a thread whose current capacity
is 10 and a 3-deep native stack, so the fast unwind succeeds untruncated. -/
def tSmall : NativeTrace := NativeTrace.init 10

def envSmall : UnwindEnv :=
  { stack := [10, 20, 30], getcontextFails := false, initLocalFails := false,
    getRegFailIdx := none }

/-- A thread whose capacity 2 is filled by a 3-deep stack, forcing the
truncation-triggered exact unwind. -/
def tTiny : NativeTrace := NativeTrace.init 2

def envDeep : UnwindEnv :=
  { stack := [11, 22, 33], getcontextFails := false, initLocalFails := false,
    getRegFailIdx := none }

/-- A thread whose capacity 1 is filled by a 2-deep stack, and an environment
in which `unw_getcontext` fails during the exact unwind. -/
def tOne : NativeTrace := NativeTrace.init 1

def envCtxFail : UnwindEnv :=
  { stack := [7, 8], getcontextFails := true, initLocalFails := false,
    getRegFailIdx := none }

/-- C1 counterexample: with the 3-deep stack `[10, 20, 30]` (innermost
first) and skip `k = 1`, the capture succeeds, frame 0 of the skipped
capture is 30 (the outermost frame), but the unskipped capture reports 20
at index 1 — so `capture(skip=1)` at frame 0 does not equal the unskipped
capture at index 1. -/
theorem skip_index_claim_false :
    ((tSmall.fill envSmall 1).ret = true)
  ∧ ((tSmall.fill envSmall 1).trace.opIndex 0 = 30)
  ∧ ((tSmall.fill envSmall 0).trace.opIndex 1 = 20)
  ∧ ¬ ((tSmall.fill envSmall 1).trace.opIndex 0 =
        (tSmall.fill envSmall 0).trace.opIndex 1) := by
  decide

/-- C1 (amended): for every skip value `k` such that the capture succeeds,
`capture(skip=k)` followed by reading frame `i` yields the same frame that
an unskipped capture of the same stack reports at the same index `i`; in
particular frame 0 (the outermost frame after skipping, accessed via
reverse indexing from the end of the thread-local buffer) equals the
unskipped capture's frame 0, since skipping discards innermost frames and
leaves the outermost indices unchanged. -/
theorem skip_correctness_amended (t : NativeTrace) (env : UnwindEnv)
    (k i : Nat) (h : (t.fill env k).ret = true) :
    (t.fill env k).trace.opIndex i = (t.fill env 0).trace.opIndex i := by
  have hk : k < (t.unwindPhase env).size := (fill_ret_iff t env k).1 h
  have h0 : 0 < (t.unwindPhase env).size := by omega
  unfold NativeTrace.opIndex
  rw [fill_trace_d_data, fill_trace_d_data, fill_trace_d_skip,
    fill_trace_d_skip, fill_trace_d_size, fill_trace_d_size]
  have hidx : k + (if (t.unwindPhase env).size > k
        then (t.unwindPhase env).size - k else 0) - 1 - i =
      0 + (if (t.unwindPhase env).size > 0
        then (t.unwindPhase env).size - 0 else 0) - 1 - i := by
    rw [if_pos hk, if_pos h0]
    omega
  rw [hidx]

theorem skip_correctness_amended_w :
    (tSmall.fill envSmall 1).trace.opIndex 0 =
      (tSmall.fill envSmall 0).trace.opIndex 0 :=
  skip_correctness_amended tSmall envSmall 1 0 (by decide)

/-- C2: in `NativeTrace::fill`, the slow exact unwind runs if and only if
the fast unwind returns a frame count equal to the current thread-local
capacity, and the resulting thread-local capacity equals
`max (2 * old capacity) (exact unwind frame count)` exactly when it runs
(and is unchanged otherwise). -/
theorem fill_exact_trigger_and_growth (t : NativeTrace) (env : UnwindEnv)
    (skip : Nat) :
    ((t.fill env skip).usedExact = true ↔
      (unwind env t.MAX_SIZE t.d_data).2 = t.MAX_SIZE)
  ∧ (t.fill env skip).trace.MAX_SIZE =
      (if (unwind env t.MAX_SIZE t.d_data).2 = t.MAX_SIZE
       then max (2 * t.MAX_SIZE) (exact_unwind env).ret
       else t.MAX_SIZE) := by
  constructor
  · rw [fill_usedExact_def]
    exact usedExact_iff t env
  · rw [fill_trace_MAX_SIZE, unwindPhase_MAX_SIZE]
    split
    · split <;> omega
    · rfl

/-- C3: after a truncation-triggered exact unwind that observes depth `d`
(its return value), the thread-local capacity is at least `d`, and across
every subsequent sequence of capture calls on the same thread the capacity
never decreases. -/
theorem growth_monotonic (t : NativeTrace) (env : UnwindEnv) (skip : Nat)
    (calls : List (UnwindEnv × Nat))
    (h : (t.fill env skip).usedExact = true) :
    (exact_unwind env).ret ≤ (t.fill env skip).trace.MAX_SIZE
  ∧ (t.fill env skip).trace.MAX_SIZE ≤
      (runFills (t.fill env skip).trace calls).MAX_SIZE := by
  constructor
  · rw [fill_usedExact_def, usedExact_iff] at h
    rw [fill_trace_MAX_SIZE, unwindPhase_MAX_SIZE, if_pos h]
    split <;> omega
  · exact cap_le_runFills calls _

theorem growth_monotonic_w :
    (exact_unwind envDeep).ret ≤ (tTiny.fill envDeep 0).trace.MAX_SIZE
  ∧ (tTiny.fill envDeep 0).trace.MAX_SIZE ≤
      (runFills (tTiny.fill envDeep 0).trace [(envSmall, 1)]).MAX_SIZE :=
  growth_monotonic tTiny envDeep 0 [(envSmall, 1)] (by decide)

/-- C4: if the platform unwinding facility cannot produce a context or a
cursor during the exact unwind, a warning is logged, the exact unwind
returns zero frames, and the capture as a whole reports zero frames
(`size() = 0`, `fill` returns false) without failing: the enclosing event
can be recorded with an empty native stack. -/
theorem unwind_failure_graceful (t : NativeTrace) (env : UnwindEnv)
    (skip : Nat)
    (hfail : env.getcontextFails = true ∨ env.initLocalFails = true)
    (hexact : (t.fill env skip).usedExact = true) :
    (exact_unwind env).ret = 0
  ∧ (exact_unwind env).warnings ≠ []
  ∧ (t.fill env skip).trace.size = 0
  ∧ (t.fill env skip).ret = false
  ∧ (t.fill env skip).warnings ≠ [] := by
  obtain ⟨hret, hwarn⟩ := exact_unwind_of_failure env hfail
  rw [fill_usedExact_def, usedExact_iff] at hexact
  have hsize : (t.unwindPhase env).size = 0 := by
    rw [unwindPhase_size, if_pos hexact]
    exact hret
  refine ⟨hret, hwarn, ?_, ?_, ?_⟩
  · show (t.fill env skip).trace.d_size = 0
    rw [fill_trace_d_size, hsize]
    simp
  · rw [fill_ret_def, hsize]
    simp
  · rw [fill_warnings_def, unwindPhase_warnings, if_pos hexact]
    exact hwarn

theorem unwind_failure_graceful_w :
    (exact_unwind envCtxFail).ret = 0
  ∧ (exact_unwind envCtxFail).warnings ≠ []
  ∧ (tOne.fill envCtxFail 0).trace.size = 0
  ∧ (tOne.fill envCtxFail 0).ret = false
  ∧ (tOne.fill envCtxFail 0).warnings ≠ [] :=
  unwind_failure_graceful tOne envCtxFail 0 (Or.inl rfl) (by decide)

/-- C5: whenever no Tracker instance exists (`getTracker` returns null),
`trackAllocation`, `trackDeallocation`, `invalidate_module_cache`,
`updateModuleCache` and `registerThreadName` leave the whole process state
(including the sink's record stream) unchanged: the events are silently
dropped. -/
theorem no_instance_noop (s : MemrayState) (ptr byteCount : Nat)
    (func : Allocator) (name : String) (h : s.d_instance = none) :
    Tracker.trackAllocation s ptr byteCount func = s
  ∧ Tracker.trackDeallocation s ptr byteCount func = s
  ∧ Tracker.invalidate_module_cache s = s
  ∧ Tracker.updateModuleCache s = s
  ∧ Tracker.registerThreadName s name = s := by
  simp [Tracker.trackAllocation, Tracker.trackDeallocation,
    Tracker.invalidate_module_cache, Tracker.updateModuleCache,
    Tracker.registerThreadName, Tracker.getTracker, h]

/-- A process state with no tracker instance, used by the C5 witness. -/
def sNone : MemrayState :=
  { d_instance := none, d_active := false, sink := [], mirror := [],
    sinkClosed := false }

theorem no_instance_noop_w :
    Tracker.trackAllocation sNone 4096 16 Allocator.malloc = sNone
  ∧ Tracker.trackDeallocation sNone 4096 16 Allocator.malloc = sNone
  ∧ Tracker.invalidate_module_cache sNone = sNone
  ∧ Tracker.updateModuleCache sNone = sNone
  ∧ Tracker.registerThreadName sNone "worker" = sNone :=
  no_instance_noop sNone 4096 16 Allocator.malloc "worker" rfl

/-- C6: when a Tracker instance already exists, a further `createTracker`
call reports an error to the caller, leaves the whole state unchanged, and
the existing instance remains installed; at most one instance exists at any
time (the state holds at most one `Tracker`). -/
theorem createTracker_second_fails (s : MemrayState) (t : Tracker)
    (w : Nat) (nt : Bool) (mi : Nat) (ff : Bool)
    (h : s.d_instance = some t) :
    (Tracker.createTracker s w nt mi ff).1 = s
  ∧ (Tracker.createTracker s w nt mi ff).2 =
      Except.error "A tracker instance already exists"
  ∧ (Tracker.createTracker s w nt mi ff).1.d_instance = some t := by
  simp [Tracker.createTracker, h]

/-- A process state holding a live tracker instance, used by the C6 witness. -/
def sLive : MemrayState :=
  { d_instance := some { writerId := 1, nativeTraces := true,
                         memoryInterval := 10, followFork := false },
    d_active := true, sink := [], mirror := [], sinkClosed := false }

theorem createTracker_second_fails_w :
    (Tracker.createTracker sLive 2 false 0 true).1 = sLive
  ∧ (Tracker.createTracker sLive 2 false 0 true).2 =
      Except.error "A tracker instance already exists"
  ∧ (Tracker.createTracker sLive 2 false 0 true).1.d_instance =
      some { writerId := 1, nativeTraces := true, memoryInterval := 10,
             followFork := false } :=
  createTracker_second_fails sLive _ 2 false 0 true (by decide)

/-- C7: `destroyTracker` is idempotent — running it a second time after the
singleton has already been destroyed is a no-op on the whole state. -/
theorem destroyTracker_idempotent (s : MemrayState) :
    Tracker.destroyTracker (Tracker.destroyTracker s) =
      Tracker.destroyTracker s := by
  rcases hs : s.d_instance with _ | t <;>
    simp [Tracker.destroyTracker, hs]

/-- C8: `pushFrame` and `popFrames` return false exactly when the singleton
is not currently active; when it is active they return true and maintain
the calling thread's interpreter frame mirror (push prepends the frame,
pop drops `count` frames), leaving it untouched when inactive. -/
theorem pushFrame_popFrames_spec (s : MemrayState) (tid count : Nat)
    (f : RawFrame) :
    (Tracker.pushFrame s tid f).2 = Tracker.isActive s
  ∧ (Tracker.popFrames s tid count).2 = Tracker.isActive s
  ∧ mirrorLookup (Tracker.pushFrame s tid f).1.mirror tid =
      (if Tracker.isActive s then f :: mirrorLookup s.mirror tid
       else mirrorLookup s.mirror tid)
  ∧ mirrorLookup (Tracker.popFrames s tid count).1.mirror tid =
      (if Tracker.isActive s then (mirrorLookup s.mirror tid).drop count
       else mirrorLookup s.mirror tid) := by
  by_cases h : Tracker.isActive s <;>
    simp [Tracker.pushFrame, Tracker.popFrames, h, mirrorLookup_mirrorSet]

/-- C9: `fill(skip)` is total and never underflows: `size()` equals the
truncated difference of the number of unwound frames and `skip` (so
`n - skip` when `n > skip` and 0 otherwise), and `fill` returns true
exactly when `skip` is strictly below the number of unwound frames. -/
theorem fill_no_underflow (t : NativeTrace) (env : UnwindEnv) (skip : Nat) :
    (t.fill env skip).trace.size = (t.fill env skip).unwound - skip
  ∧ ((t.fill env skip).ret = true ↔ skip < (t.fill env skip).unwound)
  ∧ ((t.fill env skip).unwound ≤ skip → (t.fill env skip).trace.size = 0) := by
  refine ⟨?_, ?_, ?_⟩
  · show (t.fill env skip).trace.d_size = _
    rw [fill_trace_d_size, fill_unwound_def]
    split <;> omega
  · rw [fill_ret_iff, fill_unwound_def]
  · intro h
    show (t.fill env skip).trace.d_size = 0
    rw [fill_unwound_def] at h
    rw [fill_trace_d_size]
    split <;> omega

/-- C10: after a successful `fill`, iterating from `begin()` to `end()`
visits exactly `size()` elements, every access stays inside the thread-local
buffer, and the `i`-th visited element equals `operator[](i)` for every
`i < size()`: the reverse-iterator range and the index operator present the
same outermost-to-innermost order. -/
theorem iteration_matches_opIndex (t : NativeTrace) (env : UnwindEnv)
    (skip : Nat) (hwf : t.d_data.length = t.MAX_SIZE)
    (h : (t.fill env skip).ret = true) :
    (t.fill env skip).trace.toList.length = (t.fill env skip).trace.size
  ∧ (t.fill env skip).trace.d_skip + (t.fill env skip).trace.d_size ≤
      (t.fill env skip).trace.d_data.length
  ∧ ∀ i, i < (t.fill env skip).trace.size →
      (t.fill env skip).trace.toList.getD i 0 =
        (t.fill env skip).trace.opIndex i := by
  have hb := fill_bounds t env skip hwf h
  exact ⟨toList_length_of_bounds _ hb, hb,
    fun i hi => toList_getD_of_bounds _ hb i hi⟩

theorem iteration_matches_opIndex_w :
    (tSmall.fill envSmall 1).trace.toList.length =
      (tSmall.fill envSmall 1).trace.size
  ∧ (tSmall.fill envSmall 1).trace.d_skip +
      (tSmall.fill envSmall 1).trace.d_size ≤
      (tSmall.fill envSmall 1).trace.d_data.length
  ∧ (tSmall.fill envSmall 1).trace.toList.getD 0 0 =
      (tSmall.fill envSmall 1).trace.opIndex 0 :=
  ⟨(iteration_matches_opIndex tSmall envSmall 1 (by decide) (by decide)).1,
   (iteration_matches_opIndex tSmall envSmall 1 (by decide) (by decide)).2.1,
   (iteration_matches_opIndex tSmall envSmall 1 (by decide) (by decide)).2.2
     0 (by decide)⟩

end memray.tracking_api
